import Mathlib

/-!
Shallow embedding of the curtain / cloth soft-body demo scenes
(`src/app/curtain/CurtainScene.tsx`, `src/app/cloth/ClothScene.tsx`).

JavaScript numbers are modelled as rationals (`ℚ`) wherever the code only
uses field arithmetic, and as reals (`ℝ`) where trigonometry is involved
(`computeViewSize` uses `Math.tan`).  The physics engine and the rendering
engine are external collaborators: the engine's solver step is an abstract
function over the physics state, and the renderer's normal recomputation is
an abstract function over the position buffer; everything the scenes do to
those states is embedded concretely from the source.
-/

/-- A 3-component vector, as used for node positions, forces and velocities. -/
structure Vec3 where
  x : ℚ
  y : ℚ
  z : ℚ
deriving DecidableEq, Repr, Inhabited

/-- Which curtain half an object belongs to. -/
inductive Side where
  | left
  | right
deriving DecidableEq, Repr, Inhabited

/-- Embeds `easeOutCubic` (CurtainScene.tsx line 62): `(t) => 1 - Math.pow(1 - t, 3)`. -/
def easeOutCubic (t : ℚ) : ℚ := 1 - (1 - t) ^ 3

/-- Embeds the constant `tinyAssistForce = 3` (CurtainScene.tsx line 60). -/
def tinyAssistForce : ℚ := 3

/-- Embeds the constant `segX = 40` (CurtainScene.tsx line 39). -/
def segX : ℕ := 40

/-- Embeds the constant `segY = 50` (CurtainScene.tsx line 40). -/
def segY : ℕ := 50

/-- The perspective camera state read by `computeViewSize`: vertical field of
view in degrees (`camera.fov`), aspect ratio (`camera.aspect`) and the z
coordinate of the camera position (`camera.position.z`). -/
structure Camera where
  fov : ℝ
  aspect : ℝ
  posZ : ℝ

/-- The nullable graphics globals `scene`, `camera`, `renderer`
(CurtainScene.tsx lines 29-31); `scene` and `renderer` matter only through
their nullness, the camera through its parameters. -/
structure Graphics where
  scene : Bool
  camera : Option Camera
  renderer : Bool

/-- Embeds `assertReady` (CurtainScene.tsx lines 64-66): throws
`"Graphics not ready"` when any of `scene`, `camera`, `renderer` is null. -/
def assertReady (g : Graphics) : Except String Unit :=
  match g.scene, g.camera, g.renderer with
  | true, some _, true => .ok ()
  | _, _, _ => .error "Graphics not ready"

/-- Embeds `computeViewSize` (CurtainScene.tsx lines 134-141): after
`assertReady`, `dist = camera.position.z`, `vFov = camera.fov * π / 180`,
`viewH = 2 * tan(vFov / 2) * dist`, `viewW = viewH * camera.aspect`,
returning `(viewW, viewH)`. -/
noncomputable def computeViewSize (g : Graphics) : Except String (ℝ × ℝ) :=
  match g.scene, g.camera, g.renderer with
  | true, some cam, true =>
    let dist := cam.posZ
    let vFov := cam.fov * Real.pi / 180
    let viewH := 2 * Real.tan (vFov / 2) * dist
    let viewW := viewH * cam.aspect
    .ok (viewW, viewH)
  | _, _, _ => .error "Graphics not ready"

/-- An Ammo rigid body as far as the scenes manipulate it: world-transform
origin and rotation, linear and angular velocity, and activation. -/
structure RigidBody where
  posX : ℚ
  posY : ℚ
  posZ : ℚ
  rot : ℚ × ℚ × ℚ × ℚ
  linVel : Vec3
  angVel : Vec3
  active : Bool
deriving DecidableEq, Repr

/-- The render-mesh transform of a rod (`bar.position`, `bar.quaternion`). -/
structure RodMesh where
  meshX : ℚ
  meshY : ℚ
  meshZ : ℚ
  quat : ℚ × ℚ × ℚ × ℚ
deriving DecidableEq, Repr

/-- Embeds the body of `moveRod` after `targetX` is known (CurtainScene.tsx
lines 278-296): set `mesh.position.x = targetX`; then, if the mesh has a
physics body and Ammo is present, overwrite the body's world transform with
the mesh pose, zero its linear and angular velocity, and activate it. -/
def applyPose (targetX : ℚ) (ammo : Bool) (rod : RodMesh × Option RigidBody) :
    RodMesh × Option RigidBody :=
  let m := { rod.1 with meshX := targetX }
  match rod.2, ammo with
  | some b, true =>
    (m, some { b with
        posX := targetX, posY := m.meshY, posZ := m.meshZ, rot := m.quat,
        linVel := ⟨0, 0, 0⟩, angVel := ⟨0, 0, 0⟩, active := true })
  | _, _ => (m, rod.2)

/-- Embeds `moveRod` (CurtainScene.tsx lines 273-297):
`targetX = startX + dir * slideDistance * t` followed by the pose write of
`applyPose`; `t` is the eased control value computed by the caller. -/
def moveRod (slideDistance t : ℚ) (ammo : Bool) (startX dir : ℚ)
    (rod : RodMesh × Option RigidBody) : RodMesh × Option RigidBody :=
  applyPose (startX + dir * slideDistance * t) ammo rod

/-- One iteration of the per-frame sync loop body (CurtainScene.tsx lines
336-341, ClothScene.tsx lines 456-462): node `i`'s position components are
written to buffer slots `3*i`, `3*i + 1`, `3*i + 2` (the running `i3`
counter equals `3*i` when iteration `i` starts). -/
def writeTriplet (arr : List ℚ) (i : ℕ) (p : Vec3) : List ℚ :=
  ((arr.set (3 * i) p.x).set (3 * i + 1) p.y).set (3 * i + 2) p.z

/-- The sync loop from node index `i` for `k` further iterations. -/
def syncFrom (nodes : ℕ → Vec3) : ℕ → ℕ → List ℚ → List ℚ
  | _, 0, arr => arr
  | i, k + 1, arr => syncFrom nodes (i + 1) k (writeTriplet arr i (nodes i))

/-- Embeds the position-writing loop of `sync` (CurtainScene.tsx lines
332-341) and of the cloth `animate` (ClothScene.tsx lines 451-462):
`numVerts = arr.length / 3` iterations, writing node `i` into triplet `i`. -/
def syncPositions (nodes : ℕ → Vec3) (arr : List ℚ) : List ℚ :=
  syncFrom nodes 0 (arr.length / 3) arr

/-- A mesh geometry's mutable buffers and dirty flags as the scenes touch
them: the flat position buffer, the normal buffer, and the `needsUpdate`
flags of both attributes. -/
structure MeshBuf where
  positions : List ℚ
  normals : List ℚ
  posDirty : Bool
  normDirty : Bool

/-- Embeds `sync` on one mesh (CurtainScene.tsx lines 329-348): write all
node positions, recompute vertex normals from the updated positions (the
renderer's normal computation is the abstract `normalsOf`), and set both
attributes' `needsUpdate` flags. -/
def syncMesh (normalsOf : List ℚ → List ℚ) (nodes : ℕ → Vec3) (m : MeshBuf) :
    MeshBuf :=
  let arr := syncPositions nodes m.positions
  { positions := arr, normals := normalsOf arr,
    posDirty := true, normDirty := true }

/-- The grid of `(sx+1) * (sy+1)` vertex coordinates of a
`THREE.PlaneGeometry(w, h, sx, sy)`, row by row. -/
def gridCoords (sx sy : ℕ) : List (ℕ × ℕ) :=
  (List.range (sy + 1)).flatMap fun iy =>
    (List.range (sx + 1)).map fun ix => (ix, iy)

/-- The flat vertex position buffer of `THREE.PlaneGeometry(w, h, sx, sy)`:
for each grid point, `x = ix * (w / sx) - w / 2`,
`y = -(iy * (h / sy) - h / 2)`, `z = 0` (three.js builds exactly this grid;
the rendering engine is a specified external collaborator). -/
def planeGeometryPositions (w h : ℚ) (sx sy : ℕ) : List ℚ :=
  (gridCoords sx sy).flatMap fun p =>
    [(p.1 : ℚ) * (w / sx) - w / 2, -((p.2 : ℚ) * (h / sy) - h / 2), 0]

/-- Embeds `geo.translate(dx, dy, dz)`: every position triplet is shifted
componentwise. -/
def translateGeometry (dx dy dz : ℚ) (arr : List ℚ) : List ℚ :=
  arr.enum.map fun p =>
    p.2 + (if p.1 % 3 = 0 then dx else if p.1 % 3 = 1 then dy else dz)

/-- Embeds the geometry built by `mk` (CurtainScene.tsx lines 188-200):
`new THREE.PlaneGeometry(w, h, sx, sy)` followed by
`geo.translate(xShift, yShift, 0)`. -/
def mkGeometry (w h : ℚ) (sx sy : ℕ) (xShift yShift : ℚ) : List ℚ :=
  translateGeometry xShift yShift 0 (planeGeometryPositions w h sx sy)

/-- Embeds the node count of `btSoftBodyHelpers.CreatePatch(info, c00, c01,
c10, c11, resX, resY, fixeds, gendiags)`: a grid of `resX * resY` mass
points (the physics engine is a specified external collaborator; the spec's
data model fixes the patch to a grid of `(segX+1) × (segY+1)` mass points,
and both scenes call `CreatePatch` with resolutions `segX + 1`, `segY + 1`). -/
def patchResolution (resX resY : ℕ) : ℕ := resX * resY

/-- The per-patch physics state the scenes touch directly: node positions
(`m_nodes[i].m_x`) and accumulated node forces (`m_nodes[i].m_f`). -/
structure PatchPhys where
  nodePos : ℕ → Vec3
  nodeForce : ℕ → Vec3

/-- The physics-world state reachable by the solver: the two rod rigid
bodies and the two soft-body patches. -/
structure PhysState where
  leftRodBody : Option RigidBody
  rightRodBody : Option RigidBody
  leftPatch : PatchPhys
  rightPatch : PatchPhys

/-- The mutable scene state a curtain frame acts on. -/
structure World where
  ammo : Bool
  leftRodMesh : RodMesh
  rightRodMesh : RodMesh
  phys : PhysState
  leftMesh : MeshBuf
  rightMesh : MeshBuf
  opacity : ℚ

/-- The node indices nudged by `applyAssist` for one side (CurtainScene.tsx
lines 313-319): columns `c < 2`, `xIndex = c` on the left and `segX - c` on
the right, rows `y = 0 .. segY`, index `xIndex + y * (segX + 1)`. -/
def seamIndices (s : Side) : List ℕ :=
  (List.range 2).flatMap fun c =>
    (List.range (segY + 1)).map fun y =>
      (match s with | .left => c | .right => segX - c) + y * (segX + 1)

/-- Embeds `n.get_m_f().op_add(force)` over a set of node indices: the force
vector is accumulated onto each listed node. -/
def addForce (f : Vec3) (idxs : List ℕ) (p : PatchPhys) : PatchPhys :=
  { p with nodeForce := fun i =>
      if i ∈ idxs then
        ⟨(p.nodeForce i).x + f.x, (p.nodeForce i).y + f.y, (p.nodeForce i).z + f.z⟩
      else p.nodeForce i }

/-- The observable sub-steps of one curtain frame, in the order `animate`
performs them. -/
inductive FrameAction where
  | driveActuator (s : Side) (targetX : ℚ)
  | stepWorld (dt : ℚ) (substeps : ℕ)
  | injectSeamForce (s : Side) (fx : ℚ)
  | syncPatch (s : Side)
  | setOpacity (o : ℚ)
  | render
  | reschedule
deriving DecidableEq, Repr, Inhabited

/-- Is the action a seam-force injection? -/
def isInject : FrameAction → Bool
  | .injectSeamForce _ _ => true
  | _ => false

/-- Is the action a physics-world step? -/
def isStep : FrameAction → Bool
  | .stepWorld _ _ => true
  | _ => false

/-- Is the action an actuator drive? -/
def isDrive : FrameAction → Bool
  | .driveActuator _ _ => true
  | _ => false

/-- Is the action a patch-to-mesh sync? -/
def isSync : FrameAction → Bool
  | .syncPatch _ => true
  | _ => false

/-- The scene globals that `animate` reads to decide its control flow
(CurtainScene.tsx lines 266-359): `ready` is the conjunction of the
`renderer`, `scene`, `camera` null checks, `physics` the conjunction of
`physicsWorld` and `AmmoLib`, and the `has*` flags the nullness of the rod
and cloth meshes (and cached position attributes). -/
structure SceneState where
  ready : Bool
  physics : Bool
  scrollProgress : ℚ
  leftRodStartX : ℚ
  rightRodStartX : ℚ
  slideDistance : ℚ
  hasLeftRod : Bool
  hasRightRod : Bool
  hasLeftCloth : Bool
  hasRightCloth : Bool
deriving DecidableEq, Repr

/-- Embeds one run of `animate` (CurtainScene.tsx lines 266-359) as the
list of sub-steps it performs, in source order: early-return when the
graphics globals are null; otherwise move both rods to their eased targets,
and if the physics world exists, step it by `(dt, 10)`, then (since
`tinyAssistForce > 0`) inject the seam assist forces scaled by the eased
value, then sync both cloth meshes; finally set the canvas opacity, render,
and request the next frame. -/
def animateActions (st : SceneState) (dt : ℚ) : List FrameAction :=
  if st.ready = false then []
  else
    let t := easeOutCubic st.scrollProgress
    (if st.hasLeftRod then
        [.driveActuator .left (st.leftRodStartX + (-1) * st.slideDistance * t)]
      else []) ++
    (if st.hasRightRod then
        [.driveActuator .right (st.rightRodStartX + 1 * st.slideDistance * t)]
      else []) ++
    (if st.physics then
        [FrameAction.stepWorld dt 10] ++
        (if 0 < tinyAssistForce then
            (if st.hasLeftCloth then
                [FrameAction.injectSeamForce .left (-tinyAssistForce * t)]
              else []) ++
            (if st.hasRightCloth then
                [FrameAction.injectSeamForce .right (tinyAssistForce * t)]
              else [])
          else []) ++
        (if st.hasLeftCloth then [FrameAction.syncPatch .left] else []) ++
        (if st.hasRightCloth then [FrameAction.syncPatch .right] else [])
      else []) ++
    [.setOpacity (if 1 ≤ t then 0 else 1), .render, .reschedule]

/-- The effect of one frame sub-step on the scene state.  The solver step is
the abstract `eng` acting on the physics state only (the engine cannot reach
the renderer's vertex buffers), and normal recomputation is the abstract
`normalsOf`.  Each case is embedded from the corresponding source lines:
`driveActuator` from `moveRod`'s pose write, `injectSeamForce` from
`applyAssist`, `syncPatch` from `sync`, `setOpacity` from the opacity
assignment; `render` and `reschedule` touch no scene state. -/
def applyAction (normalsOf : List ℚ → List ℚ)
    (eng : ℚ → ℕ → PhysState → PhysState) :
    FrameAction → World → World
  | .driveActuator .left x, w =>
    let r := applyPose x w.ammo (w.leftRodMesh, w.phys.leftRodBody)
    { w with leftRodMesh := r.1, phys := { w.phys with leftRodBody := r.2 } }
  | .driveActuator .right x, w =>
    let r := applyPose x w.ammo (w.rightRodMesh, w.phys.rightRodBody)
    { w with rightRodMesh := r.1, phys := { w.phys with rightRodBody := r.2 } }
  | .stepWorld dt n, w => { w with phys := eng dt n w.phys }
  | .injectSeamForce .left fx, w =>
    { w with phys := { w.phys with
        leftPatch := addForce ⟨fx, 0, 0⟩ (seamIndices .left) w.phys.leftPatch } }
  | .injectSeamForce .right fx, w =>
    { w with phys := { w.phys with
        rightPatch := addForce ⟨fx, 0, 0⟩ (seamIndices .right) w.phys.rightPatch } }
  | .syncPatch .left, w =>
    { w with leftMesh := syncMesh normalsOf w.phys.leftPatch.nodePos w.leftMesh }
  | .syncPatch .right, w =>
    { w with rightMesh := syncMesh normalsOf w.phys.rightPatch.nodePos w.rightMesh }
  | .setOpacity o, w => { w with opacity := o }
  | .render, w => w
  | .reschedule, w => w

/-- Embeds the effect of the cleanup closure (CurtainScene.tsx lines
380-387) on the state `animate` reads: `renderer`, `scene` and `camera` are
nulled, so the ready flag drops (listener removal is modelled separately). -/
def curtainCleanup (st : SceneState) : SceneState := { st with ready := false }

/-- Event listeners the curtain scene registers on `window` during
`initGraphics` (CurtainScene.tsx lines 109-110). -/
def curtainListenersAdded : List String := ["resize", "scroll"]

/-- Event listeners the curtain cleanup removes from `window`
(CurtainScene.tsx lines 381-382). -/
def curtainListenersRemoved : List String := ["resize", "scroll"]

/-- Event listeners the cloth scene registers on `window` (`initGraphics`
line 100, `initInput` lines 437-438). -/
def clothListenersAdded : List String := ["resize", "keydown", "keyup"]

/-- Event listeners the cloth cleanup removes from `window` (ClothScene.tsx
lines 510-512). -/
def clothListenersRemoved : List String := ["resize", "keydown", "keyup"]

/-- The distinguishable outcomes of the Ammo loading sequence awaited by the
boot block (CurtainScene.tsx lines 361-378). -/
inductive LoadOutcome where
  | scriptFailed
  | ammoMissing
  | ammoInitFailed
  | loaded
deriving DecidableEq, Repr

/-- What the boot block has accomplished when it finishes. -/
structure BootState where
  graphics : Bool
  ammoLib : Bool
  physicsWorld : Bool
  curtains : Bool
  softBodies : Bool
  animating : Bool
  exnPropagated : Bool
deriving DecidableEq, Repr

/-- Embeds the async boot block (CurtainScene.tsx lines 361-378): inside a
try/catch, `initGraphics()`, `await loadScript(...)` (throws on
`scriptFailed`), then if `window.Ammo` exists `AmmoLib = await
window.Ammo(...)` (throws on `ammoInitFailed`) and `initPhysics()`; then
`createCurtains()` (which builds the plane meshes always and the soft
bodies only when `AmmoLib` is non-null), `onScroll()`, `animate()`.  Any
throw jumps to the catch, which only logs — nothing propagates, but the
statements after the throw never run. -/
def boot (o : LoadOutcome) : BootState :=
  let st : BootState :=
    { graphics := true, ammoLib := false, physicsWorld := false,
      curtains := false, softBodies := false, animating := false,
      exnPropagated := false }
  match o with
  | .scriptFailed => st
  | .ammoInitFailed => st
  | .ammoMissing =>
    { st with curtains := true, softBodies := false, animating := true }
  | .loaded =>
    { st with ammoLib := true, physicsWorld := true, curtains := true,
              softBodies := true, animating := true }

/-- The observable sub-steps of one cloth-scene frame. -/
inductive ClothAction where
  | motor (v : ℚ)
  | step (dt : ℚ) (substeps : ℕ)
  | syncCloth
  | syncRigids
  | render
  | reschedule
deriving DecidableEq, Repr, Inhabited

/-- The outcome of one cloth-scene frame: the sub-steps that ran, whether
the callback ran to completion, and whether it requested a successor
frame. -/
structure ClothFrame where
  actions : List ClothAction
  completed : Bool
  rescheduled : Bool
deriving DecidableEq, Repr

/-- Embeds `animate` of the cloth scene (ClothScene.tsx lines 441-485):
drive the hinge motor toward `0.8 * armMovement` when the hinge exists;
when the physics world exists, step it by `(dt, 10)`, sync the cloth mesh
when present, and sync the rigid bodies; then `renderer!.render(...)` —
when `renderer` is null (after cleanup) this dereference throws, so the
frame aborts before `requestAnimationFrame` and neither completes nor
reschedules. -/
def clothAnimate (hasRenderer hasHinge hasPhysics hasCloth : Bool)
    (armMovement dt : ℚ) : ClothFrame :=
  let before :=
    (if hasHinge then [ClothAction.motor (8 / 10 * armMovement)] else []) ++
    (if hasPhysics then
        [ClothAction.step dt 10] ++
        (if hasCloth then [ClothAction.syncCloth] else []) ++
        [ClothAction.syncRigids]
      else [])
  if hasRenderer then
    { actions := before ++ [ClothAction.render, ClothAction.reschedule],
      completed := true, rescheduled := true }
  else
    { actions := before, completed := false, rescheduled := false }

/-- The ordering the spec asserts for a frame: every actuator drive comes
before every seam-force injection, and every seam-force injection comes
before every physics step. -/
def injectBeforeStep (l : List FrameAction) : Prop :=
  (∀ i, i < l.length → ∀ j, j < l.length →
    isDrive (l.getD i .render) = true → isInject (l.getD j .render) = true → i < j) ∧
  (∀ i, i < l.length → ∀ j, j < l.length →
    isInject (l.getD i .render) = true → isStep (l.getD j .render) = true → i < j)

instance (l : List FrameAction) : Decidable (injectBeforeStep l) := by
  unfold injectBeforeStep
  infer_instance

/-- The rod rigid body of one side of the world. -/
def World.rodBody (w : World) : Side → Option RigidBody
  | .left => w.phys.leftRodBody
  | .right => w.phys.rightRodBody

/-- A concrete scene state with every collaborator present, used to
instantiate the universally quantified frame theorems. -/
def sampleScene : SceneState :=
  { ready := true, physics := true, scrollProgress := 1/2,
    leftRodStartX := -2, rightRodStartX := 2, slideDistance := 20,
    hasLeftRod := true, hasRightRod := true,
    hasLeftCloth := true, hasRightCloth := true }

/-- A concrete node-position table used to instantiate the sync theorems. -/
def sampleNodes : ℕ → Vec3 := fun n => ⟨(n : ℚ), (n : ℚ) + 7, (n : ℚ) + 9⟩

/-- The identity solver step, a concrete instance of the abstract engine. -/
def idEngine : ℚ → ℕ → PhysState → PhysState := fun _ _ p => p

/-- The identity normal recomputation, a concrete instance of the abstract
renderer capability. -/
def idNormals : List ℚ → List ℚ := fun a => a

/-- A concrete world with both rod bodies present, used to instantiate the
universally quantified world theorems. -/
def sampleWorld : World :=
  { ammo := true
    leftRodMesh := ⟨-2, 3, 0, (0, 0, 0, 1)⟩
    rightRodMesh := ⟨2, 3, 0, (0, 0, 0, 1)⟩
    phys :=
      { leftRodBody := some ⟨-2, 3, 0, (0, 0, 0, 1), ⟨1, 1, 1⟩, ⟨1, 1, 1⟩, false⟩
        rightRodBody := some ⟨2, 3, 0, (0, 0, 0, 1), ⟨1, 1, 1⟩, ⟨1, 1, 1⟩, false⟩
        leftPatch := ⟨sampleNodes, fun _ => ⟨0, 0, 0⟩⟩
        rightPatch := ⟨sampleNodes, fun _ => ⟨0, 0, 0⟩⟩ }
    leftMesh := ⟨[1, 2, 3, 4, 5, 6], [0, 0, 1, 0, 0, 1], false, false⟩
    rightMesh := ⟨[1, 2, 3, 4, 5, 6], [0, 0, 1, 0, 0, 1], false, false⟩
    opacity := 1 }

/-! ## Helper lemmas -/

/-- A pose write always lands the mesh at the target x. -/
theorem applyPose_fst_meshX (t : ℚ) (ammo : Bool)
    (rod : RodMesh × Option RigidBody) : (applyPose t ammo rod).1.meshX = t := by
  rcases rod with ⟨m, b⟩
  rcases b with _ | b <;> rcases ammo <;> rfl

/-- Writing one triplet preserves the buffer length. -/
theorem writeTriplet_length (arr : List ℚ) (i : ℕ) (p : Vec3) :
    (writeTriplet arr i p).length = arr.length := by
  simp [writeTriplet]

/-- The sync loop preserves the buffer length. -/
theorem syncFrom_length (nodes : ℕ → Vec3) (k : ℕ) :
    ∀ (i : ℕ) (arr : List ℚ), (syncFrom nodes i k arr).length = arr.length := by
  induction k with
  | zero => intro i arr; rfl
  | succ k ih =>
    intro i arr
    simp only [syncFrom]
    rw [ih, writeTriplet_length]

/-- The full sync pass preserves the buffer length. -/
theorem syncPositions_length (nodes : ℕ → Vec3) (arr : List ℚ) :
    (syncPositions nodes arr).length = arr.length :=
  syncFrom_length nodes _ 0 arr

/-- Writing triplet `i` leaves slots below `3 * i` unchanged. -/
theorem writeTriplet_getElem_lt (arr : List ℚ) (i : ℕ) (p : Vec3) (m : ℕ)
    (h : m < 3 * i) : (writeTriplet arr i p)[m]? = arr[m]? := by
  unfold writeTriplet
  rw [List.getElem?_set_ne (by omega), List.getElem?_set_ne (by omega),
    List.getElem?_set_ne (by omega)]

/-- Writing triplet `i` puts the three components at `3*i`, `3*i+1`,
`3*i+2` when those slots exist. -/
theorem writeTriplet_getElem_self (arr : List ℚ) (i : ℕ) (p : Vec3)
    (h : 3 * i + 2 < arr.length) :
    (writeTriplet arr i p)[3 * i]? = some p.x
    ∧ (writeTriplet arr i p)[3 * i + 1]? = some p.y
    ∧ (writeTriplet arr i p)[3 * i + 2]? = some p.z := by
  unfold writeTriplet
  refine ⟨?_, ?_, ?_⟩
  · rw [List.getElem?_set_ne (by omega), List.getElem?_set_ne (by omega)]
    exact List.getElem?_set_eq_of_lt _ (by omega)
  · rw [List.getElem?_set_ne (by omega)]
    exact List.getElem?_set_eq_of_lt _ (by simp only [List.length_set]; omega)
  · exact List.getElem?_set_eq_of_lt _ (by simp only [List.length_set]; omega)

/-- The sync loop starting at node `i` leaves slots below `3 * i`
unchanged. -/
theorem syncFrom_getElem_lt (nodes : ℕ → Vec3) (k : ℕ) :
    ∀ (i m : ℕ) (arr : List ℚ), m < 3 * i →
      (syncFrom nodes i k arr)[m]? = arr[m]? := by
  induction k with
  | zero => intro i m arr _; rfl
  | succ k ih =>
    intro i m arr h
    simp only [syncFrom]
    rw [ih (i + 1) m _ (by omega), writeTriplet_getElem_lt _ _ _ _ h]

/-- The sync loop over nodes `i .. i+k-1` writes node `j`'s components into
slots `3*j`, `3*j+1`, `3*j+2` for every `j` it visits. -/
theorem syncFrom_getElem (nodes : ℕ → Vec3) (k : ℕ) :
    ∀ (i j : ℕ) (arr : List ℚ), i ≤ j → j < i + k → 3 * j + 2 < arr.length →
      (syncFrom nodes i k arr)[3 * j]? = some (nodes j).x
      ∧ (syncFrom nodes i k arr)[3 * j + 1]? = some (nodes j).y
      ∧ (syncFrom nodes i k arr)[3 * j + 2]? = some (nodes j).z := by
  induction k with
  | zero => intro i j arr hij hjk _; omega
  | succ k ih =>
    intro i j arr hij hjk hlen
    simp only [syncFrom]
    rcases Nat.eq_or_lt_of_le hij with rfl | hlt
    · obtain ⟨hx, hy, hz⟩ := writeTriplet_getElem_self arr i (nodes i) hlen
      refine ⟨?_, ?_, ?_⟩
      · rw [syncFrom_getElem_lt nodes k (i + 1) _ _ (by omega)]; exact hx
      · rw [syncFrom_getElem_lt nodes k (i + 1) _ _ (by omega)]; exact hy
      · rw [syncFrom_getElem_lt nodes k (i + 1) _ _ (by omega)]; exact hz
    · exact ih (i + 1) j _ hlt (by omega)
        (by rw [writeTriplet_length]; exact hlen)

/-- The full sync pass writes node `i` into triplet `i` for every node index
below `length / 3`. -/
theorem syncPositions_getElem (nodes : ℕ → Vec3) (arr : List ℚ) (i : ℕ)
    (h : i < arr.length / 3) :
    (syncPositions nodes arr)[3 * i]? = some (nodes i).x
    ∧ (syncPositions nodes arr)[3 * i + 1]? = some (nodes i).y
    ∧ (syncPositions nodes arr)[3 * i + 2]? = some (nodes i).z := by
  have h3 : arr.length / 3 * 3 ≤ arr.length := Nat.div_mul_le_self _ _
  exact syncFrom_getElem nodes _ 0 i arr (Nat.zero_le _) (by omega) (by omega)

/-- The vertex grid of a plane geometry has `(sy+1) * (sx+1)` points. -/
theorem gridCoords_length (sx sy : ℕ) :
    (gridCoords sx sy).length = (sy + 1) * (sx + 1) := by
  rw [gridCoords, List.length_flatMap]
  rw [List.map_congr_left
    (fun a _ => show (List.length ∘ _) a = sx + 1 by simp)]
  simp [List.map_const', List.sum_replicate, smul_eq_mul]

/-- The flat plane-geometry buffer has three entries per grid point. -/
theorem planeGeometryPositions_length (w h : ℚ) (sx sy : ℕ) :
    (planeGeometryPositions w h sx sy).length = (sx + 1) * (sy + 1) * 3 := by
  rw [planeGeometryPositions, List.length_flatMap]
  rw [List.map_congr_left
    (fun a _ => show (List.length ∘ _) a = 3 by simp)]
  rw [List.map_const', List.sum_replicate, smul_eq_mul, gridCoords_length]
  ring

/-- Translating a geometry preserves its buffer length. -/
theorem translateGeometry_length (dx dy dz : ℚ) (arr : List ℚ) :
    (translateGeometry dx dy dz arr).length = arr.length := by
  simp [translateGeometry]

/-- The buffer built by `mk` has length `(sx+1) * (sy+1) * 3`. -/
theorem mkGeometry_length (w h : ℚ) (sx sy : ℕ) (xs ys : ℚ) :
    (mkGeometry w h sx sy xs ys).length = (sx + 1) * (sy + 1) * 3 := by
  rw [mkGeometry, translateGeometry_length, planeGeometryPositions_length]

/-- No frame sub-step changes the length of either position buffer. -/
theorem applyAction_length (normalsOf : List ℚ → List ℚ)
    (eng : ℚ → ℕ → PhysState → PhysState) (a : FrameAction) (w : World) :
    ((applyAction normalsOf eng a w).leftMesh.positions).length
      = w.leftMesh.positions.length
    ∧ ((applyAction normalsOf eng a w).rightMesh.positions).length
      = w.rightMesh.positions.length := by
  cases a with
  | driveActuator s x => cases s <;> exact ⟨rfl, rfl⟩
  | stepWorld dt n => exact ⟨rfl, rfl⟩
  | injectSeamForce s fx => cases s <;> exact ⟨rfl, rfl⟩
  | syncPatch s =>
    cases s <;> simp [applyAction, syncMesh, syncPositions_length]
  | setOpacity o => exact ⟨rfl, rfl⟩
  | render => exact ⟨rfl, rfl⟩
  | reschedule => exact ⟨rfl, rfl⟩

/-- Only the sync sub-step touches the position buffers. -/
theorem applyAction_positions_of_not_sync (normalsOf : List ℚ → List ℚ)
    (eng : ℚ → ℕ → PhysState → PhysState) (a : FrameAction) (w : World)
    (h : isSync a = false) :
    (applyAction normalsOf eng a w).leftMesh.positions = w.leftMesh.positions
    ∧ (applyAction normalsOf eng a w).rightMesh.positions
      = w.rightMesh.positions := by
  cases a with
  | driveActuator s x => cases s <;> exact ⟨rfl, rfl⟩
  | stepWorld dt n => exact ⟨rfl, rfl⟩
  | injectSeamForce s fx => cases s <;> exact ⟨rfl, rfl⟩
  | syncPatch s => simp [isSync] at h
  | setOpacity o => exact ⟨rfl, rfl⟩
  | render => exact ⟨rfl, rfl⟩
  | reschedule => exact ⟨rfl, rfl⟩

/-! ## Claim theorems -/

/-- C1 (amended): per frame, with all collaborators present, the sub-steps
run in the fixed source order: both kinematic actuators are driven with the
current eased control signal, then the physics world is stepped by the
frame's elapsed time with exactly 10 sub-steps, then the supplemental seam
forces (scaled by the eased control value) are injected into the patch
nodes, then both patches are synced, and the frame ends with the opacity
write, the render and the reschedule. -/
theorem c1_frame_order (st : SceneState) (dt : ℚ)
    (hr : st.ready = true) (hp : st.physics = true)
    (h1 : st.hasLeftRod = true) (h2 : st.hasRightRod = true)
    (h3 : st.hasLeftCloth = true) (h4 : st.hasRightCloth = true) :
    animateActions st dt =
      [.driveActuator .left
          (st.leftRodStartX + (-1) * st.slideDistance * easeOutCubic st.scrollProgress),
        .driveActuator .right
          (st.rightRodStartX + 1 * st.slideDistance * easeOutCubic st.scrollProgress),
        .stepWorld dt 10,
        .injectSeamForce .left (-tinyAssistForce * easeOutCubic st.scrollProgress),
        .injectSeamForce .right (tinyAssistForce * easeOutCubic st.scrollProgress),
        .syncPatch .left, .syncPatch .right,
        .setOpacity (if 1 ≤ easeOutCubic st.scrollProgress then 0 else 1),
        .render, .reschedule] := by
  simp only [animateActions, hr, hp, h1, h2, h3, h4, if_true, if_false]
  norm_num [tinyAssistForce]

/-- C1 (counterexample): at a concrete ready frame, the claimed ordering —
every seam-force injection before the physics step — is false: `animate`
steps the world first and injects the seam forces afterwards. -/
theorem c1_frame_order_counterexample :
    ¬ injectBeforeStep (animateActions sampleScene (1 / 60)) := by
  decide

/-- C1 (witness): the amended frame order at a concrete scene state. -/
theorem c1_frame_order_witness :
    animateActions sampleScene (1 / 60) =
      [.driveActuator .left
          (sampleScene.leftRodStartX
            + (-1) * sampleScene.slideDistance * easeOutCubic sampleScene.scrollProgress),
        .driveActuator .right
          (sampleScene.rightRodStartX
            + 1 * sampleScene.slideDistance * easeOutCubic sampleScene.scrollProgress),
        .stepWorld (1 / 60) 10,
        .injectSeamForce .left (-tinyAssistForce * easeOutCubic sampleScene.scrollProgress),
        .injectSeamForce .right (tinyAssistForce * easeOutCubic sampleScene.scrollProgress),
        .syncPatch .left, .syncPatch .right,
        .setOpacity (if 1 ≤ easeOutCubic sampleScene.scrollProgress then 0 else 1),
        .render, .reschedule] :=
  c1_frame_order sampleScene (1 / 60) rfl rfl rfl rfl rfl rfl

/-- C2: the per-frame sync writes node `i`'s position exactly into buffer
slots `3*i`, `3*i+1`, `3*i+2` for every `i` below `length / 3`; after the
pass it stores the recomputed normals and marks both attributes dirty; and
no frame sub-step other than the sync mutates a position buffer. -/
theorem c2_sync_exact :
    (∀ (nodes : ℕ → Vec3) (arr : List ℚ) (i : ℕ), i < arr.length / 3 →
      (syncPositions nodes arr)[3 * i]? = some (nodes i).x
      ∧ (syncPositions nodes arr)[3 * i + 1]? = some (nodes i).y
      ∧ (syncPositions nodes arr)[3 * i + 2]? = some (nodes i).z)
  ∧ (∀ (normalsOf : List ℚ → List ℚ) (nodes : ℕ → Vec3) (m : MeshBuf),
      (syncMesh normalsOf nodes m).normals
        = normalsOf (syncPositions nodes m.positions)
      ∧ (syncMesh normalsOf nodes m).posDirty = true
      ∧ (syncMesh normalsOf nodes m).normDirty = true)
  ∧ (∀ (normalsOf : List ℚ → List ℚ) (eng : ℚ → ℕ → PhysState → PhysState)
      (a : FrameAction) (w : World), isSync a = false →
      (applyAction normalsOf eng a w).leftMesh.positions = w.leftMesh.positions
      ∧ (applyAction normalsOf eng a w).rightMesh.positions
        = w.rightMesh.positions) :=
  ⟨syncPositions_getElem, fun _ _ _ => ⟨rfl, rfl, rfl⟩,
    applyAction_positions_of_not_sync⟩

/-- C2 (witness): the sync write at node 1 of a 6-slot buffer, and the
physics step leaving a concrete world's buffers untouched. -/
theorem c2_sync_exact_witness :
    ((syncPositions sampleNodes [1, 2, 3, 4, 5, 6])[3 * 1]?
        = some (sampleNodes 1).x
      ∧ (syncPositions sampleNodes [1, 2, 3, 4, 5, 6])[3 * 1 + 1]?
        = some (sampleNodes 1).y
      ∧ (syncPositions sampleNodes [1, 2, 3, 4, 5, 6])[3 * 1 + 2]?
        = some (sampleNodes 1).z)
    ∧ ((applyAction idNormals idEngine (.stepWorld (1 / 60) 10)
          sampleWorld).leftMesh.positions = sampleWorld.leftMesh.positions
      ∧ (applyAction idNormals idEngine (.stepWorld (1 / 60) 10)
          sampleWorld).rightMesh.positions = sampleWorld.rightMesh.positions) :=
  ⟨c2_sync_exact.1 sampleNodes [1, 2, 3, 4, 5, 6] 1 (by decide),
    c2_sync_exact.2.2 idNormals idEngine (.stepWorld (1 / 60) 10) sampleWorld rfl⟩

/-- C3: the easing function is `c ↦ 1 - (1-c)^3`, it is monotonically
non-decreasing on `[0, 1]`, and `ease 0 = 0`, `ease 1 = 1`. -/
theorem c3_ease_spec :
    (∀ c : ℚ, easeOutCubic c = 1 - (1 - c) ^ 3)
  ∧ (∀ a b : ℚ, 0 ≤ a → a ≤ b → b ≤ 1 → easeOutCubic a ≤ easeOutCubic b)
  ∧ easeOutCubic 0 = 0 ∧ easeOutCubic 1 = 1 := by
  refine ⟨fun c => rfl, ?_, by norm_num [easeOutCubic], by norm_num [easeOutCubic]⟩
  intro a b _ hab hb1
  have h := pow_le_pow_left₀ (show (0 : ℚ) ≤ 1 - b by linarith)
    (show 1 - b ≤ 1 - a by linarith) 3
  simp only [easeOutCubic]
  linarith

/-- C3 (witness): monotonicity applied at the endpoints 0 and 1/2. -/
theorem c3_ease_spec_witness : easeOutCubic 0 ≤ easeOutCubic (1 / 2) :=
  c3_ease_spec.2.1 0 (1 / 2) le_rfl one_half_pos.le one_half_lt_one.le

/-- C4: with the graphics ready, `computeViewSize` returns exactly
`viewH = 2 * tan(fov·π/180 / 2) * dist` and `viewW = viewH * aspect` (as the
pair `(viewW, viewH)`); whenever the readiness assertion fails — or any of
scene, camera, renderer is missing — it returns the not-ready error.  It is
a pure function of the graphics state. -/
theorem c4_computeViewSize_spec :
    (∀ (g : Graphics) (cam : Camera), g.scene = true → g.camera = some cam →
      g.renderer = true →
      computeViewSize g = .ok
        (2 * Real.tan (cam.fov * Real.pi / 180 / 2) * cam.posZ * cam.aspect,
          2 * Real.tan (cam.fov * Real.pi / 180 / 2) * cam.posZ))
  ∧ (∀ g : Graphics, assertReady g = .error "Graphics not ready" →
      computeViewSize g = .error "Graphics not ready")
  ∧ (∀ g : Graphics, g.scene = false ∨ g.camera = none ∨ g.renderer = false →
      computeViewSize g = .error "Graphics not ready") := by
  refine ⟨?_, ?_, ?_⟩
  · rintro ⟨s, c, r⟩ cam hs hc hr
    subst hs
    subst hr
    cases hc
    rfl
  · rintro ⟨s, c, r⟩ h
    cases s <;> cases r <;> rcases c with _ | cam <;>
      first | rfl | simp [assertReady] at h
  · rintro ⟨s, c, r⟩ h
    cases s <;> cases r <;> rcases c with _ | cam <;>
      first | rfl | (rcases h with h | h | h <;> simp at h)

/-- C4 (witness): the formula at the scene's actual camera (fov 60°,
distance 8) with aspect 2. -/
theorem c4_computeViewSize_spec_witness :
    computeViewSize ⟨true, some ⟨60, 2, 8⟩, true⟩ = .ok
      (2 * Real.tan ((60 : ℝ) * Real.pi / 180 / 2) * 8 * 2,
        2 * Real.tan ((60 : ℝ) * Real.pi / 180 / 2) * 8) :=
  c4_computeViewSize_spec.1 ⟨true, some ⟨60, 2, 8⟩, true⟩ ⟨60, 2, 8⟩ rfl rfl rfl

/-- C5: the slide actuator places the rod mesh at
`targetX = start + dir * slideDistance * ease(c)`; at `c = 0` the rod sits
exactly at its start, at `c = 1` exactly at `start - slideDistance`
(direction −1) or `start + slideDistance` (direction +1); and the paired
rigid body, when present, is moved to the same target x. -/
theorem c5_moveRod_targets :
    ∀ (sd sx dir c : ℚ) (ammo : Bool) (rod : RodMesh × Option RigidBody),
      ((moveRod sd (easeOutCubic c) ammo sx dir rod).1.meshX
        = sx + dir * sd * easeOutCubic c)
      ∧ (moveRod sd (easeOutCubic 0) ammo sx dir rod).1.meshX = sx
      ∧ (moveRod sd (easeOutCubic 1) ammo sx (-1) rod).1.meshX = sx - sd
      ∧ (moveRod sd (easeOutCubic 1) ammo sx 1 rod).1.meshX = sx + sd
      ∧ ∀ b : RigidBody, rod.2 = some b →
          (moveRod sd (easeOutCubic c) true sx dir rod).2.map RigidBody.posX
            = some (sx + dir * sd * easeOutCubic c) := by
  intro sd sx dir c ammo rod
  have e0 : easeOutCubic 0 = 0 := by norm_num [easeOutCubic]
  have e1 : easeOutCubic 1 = 1 := by norm_num [easeOutCubic]
  refine ⟨applyPose_fst_meshX _ _ _, ?_, ?_, ?_, ?_⟩
  · rw [moveRod, applyPose_fst_meshX, e0]; ring
  · rw [moveRod, applyPose_fst_meshX, e1]; ring
  · rw [moveRod, applyPose_fst_meshX, e1]; ring
  · intro b hb
    rcases rod with ⟨m, ob⟩
    cases hb
    rfl

/-- C5 (witness): the left rod of a concrete world at control signal 1
lands at `start - slideDistance`, and its body follows the target. -/
theorem c5_moveRod_targets_witness :
    ((moveRod 20 (easeOutCubic 1) true (-2) (-1)
        (sampleWorld.leftRodMesh, sampleWorld.phys.leftRodBody)).1.meshX
      = -2 - 20)
    ∧ (moveRod 20 (easeOutCubic 1) true (-2) (-1)
        (sampleWorld.leftRodMesh, sampleWorld.phys.leftRodBody)).2.map
          RigidBody.posX = some (-2 + (-1) * 20 * easeOutCubic 1) :=
  ⟨(c5_moveRod_targets 20 (-2) (-1) 1 true
      (sampleWorld.leftRodMesh, sampleWorld.phys.leftRodBody)).2.2.1,
    (c5_moveRod_targets 20 (-2) (-1) 1 true
      (sampleWorld.leftRodMesh, sampleWorld.phys.leftRodBody)).2.2.2.2
      ⟨-2, 3, 0, (0, 0, 0, 1), ⟨1, 1, 1⟩, ⟨1, 1, 1⟩, false⟩ rfl⟩

/-- C6: immediately after a kinematic pose overwrite (with Ammo present),
the paired rigid body's linear and angular velocity are exactly zero and
the body is active — both for the raw pose write and for the actuator-drive
sub-step of any frame on any world. -/
theorem c6_pose_overwrite_velocity :
    ∀ (x : ℚ) (rod : RodMesh × Option RigidBody) (b : RigidBody),
      (rod.2 = some b →
        ∃ b', (applyPose x true rod).2 = some b'
          ∧ b'.linVel = ⟨0, 0, 0⟩ ∧ b'.angVel = ⟨0, 0, 0⟩ ∧ b'.active = true)
      ∧ ∀ (normalsOf : List ℚ → List ℚ) (eng : ℚ → ℕ → PhysState → PhysState)
          (s : Side) (w : World), w.ammo = true → w.rodBody s = some b →
          ∃ b', (applyAction normalsOf eng (.driveActuator s x) w).rodBody s
              = some b'
            ∧ b'.linVel = ⟨0, 0, 0⟩ ∧ b'.angVel = ⟨0, 0, 0⟩
            ∧ b'.active = true := by
  intro x rod b
  constructor
  · intro h
    rcases rod with ⟨m, ob⟩
    cases h
    exact ⟨_, rfl, rfl, rfl, rfl⟩
  · intro normalsOf eng s w hammo hbody
    cases s
    all_goals
      simp only [World.rodBody] at hbody
      simp only [applyAction, World.rodBody, hammo, hbody, applyPose]
      exact ⟨_, rfl, rfl, rfl, rfl⟩

/-- C6 (witness): the pose overwrite of a concrete left rod body. -/
theorem c6_pose_overwrite_velocity_witness :
    ∃ b', (applyPose 5 true
        (sampleWorld.leftRodMesh, sampleWorld.phys.leftRodBody)).2 = some b'
      ∧ b'.linVel = ⟨0, 0, 0⟩ ∧ b'.angVel = ⟨0, 0, 0⟩ ∧ b'.active = true :=
  (c6_pose_overwrite_velocity 5
    (sampleWorld.leftRodMesh, sampleWorld.phys.leftRodBody)
    ⟨-2, 3, 0, (0, 0, 0, 1), ⟨1, 1, 1⟩, ⟨1, 1, 1⟩, false⟩).1 rfl

/-- C7: a patch mesh built with subdivisions `sx, sy` has a position buffer
of length exactly `(sx+1)*(sy+1)*3`, and no frame sub-step ever changes a
position buffer's length. -/
theorem c7_buffer_length :
    (∀ (w h xs ys : ℚ) (sx sy : ℕ),
      (mkGeometry w h sx sy xs ys).length = (sx + 1) * (sy + 1) * 3)
  ∧ (∀ (normalsOf : List ℚ → List ℚ) (eng : ℚ → ℕ → PhysState → PhysState)
      (a : FrameAction) (w : World),
      ((applyAction normalsOf eng a w).leftMesh.positions).length
        = w.leftMesh.positions.length
      ∧ ((applyAction normalsOf eng a w).rightMesh.positions).length
        = w.rightMesh.positions.length) :=
  ⟨fun w h xs ys sx sy => mkGeometry_length w h sx sy xs ys, applyAction_length⟩

/-- C8 (counterexample): when the engine script itself fails to load, the
boot catch swallows the error (nothing propagates) but `createCurtains` is
never reached, so no patches are created — contradicting the claim that the
patches are still created and rendered. -/
theorem c8_boot_counterexample :
    (boot .scriptFailed).exnPropagated = false
    ∧ (boot .scriptFailed).curtains = false := by
  decide

/-- C8 (amended): no load-failure mode propagates an exception past setup;
when the script loads but the engine module is absent from the window, the
patches are still created and animated as static planes with no soft
bodies; but when the script itself fails to load, or the module's own
initialization throws, boot aborts before creating any patch. -/
theorem c8_degraded_boot :
    (∀ o : LoadOutcome, (boot o).exnPropagated = false)
  ∧ (boot .ammoMissing).curtains = true
  ∧ (boot .ammoMissing).softBodies = false
  ∧ (boot .ammoMissing).animating = true
  ∧ (boot .scriptFailed).curtains = false
  ∧ (boot .ammoInitFailed).curtains = false :=
  ⟨fun o => by cases o <;> rfl, rfl, rfl, rfl, rfl, rfl⟩

/-- C9 (counterexample): in the cloth scene the frame already scheduled
when disposal happens does not complete its work: with the renderer nulled
by cleanup it aborts at the render call (and therefore also never
reschedules), contradicting the claim that an in-flight frame completes. -/
theorem c9_disposal_counterexample :
    (clothAnimate false true true true 0 (1 / 60)).completed = false
    ∧ (clothAnimate false true true true 0 (1 / 60)).rescheduled = false :=
  ⟨rfl, rfl⟩

/-- C9 (amended): disposal removes exactly the window event listeners each
scene registered, and the frame callback is never rescheduled again: a
frame fired after disposal does not schedule a successor — in the curtain
scene it returns early doing no work at all, while in the cloth scene it
aborts at the render call instead of completing. -/
theorem c9_disposal_behavior :
    curtainListenersRemoved = curtainListenersAdded
  ∧ clothListenersRemoved = clothListenersAdded
  ∧ (∀ st : SceneState, (curtainCleanup st).ready = false)
  ∧ (∀ (st : SceneState) (dt : ℚ), st.ready = false →
      animateActions st dt = [])
  ∧ (∀ (hh hp hc : Bool) (av dt : ℚ),
      (clothAnimate false hh hp hc av dt).rescheduled = false
      ∧ (clothAnimate false hh hp hc av dt).completed = false) := by
  refine ⟨rfl, rfl, fun st => rfl, ?_, fun hh hp hc av dt => ⟨rfl, rfl⟩⟩
  intro st dt h
  simp [animateActions, h]

/-- C9 (witness): a curtain frame fired after cleanup performs no sub-step
and in particular does not reschedule. -/
theorem c9_disposal_behavior_witness :
    animateActions (curtainCleanup sampleScene) (1 / 60) = [] :=
  c9_disposal_behavior.2.2.2.1 (curtainCleanup sampleScene) (1 / 60) rfl

/-- C10: the soft-body patch is created with node resolution
`(sx+1) × (sy+1)`, equal to the render geometry's vertex count, so every
node index the per-frame sync reads (all `i < bufferLength / 3`) is within
the patch's node array. -/
theorem c10_sync_in_bounds :
    ∀ (sx sy : ℕ) (w h xs ys : ℚ) (i : ℕ),
      ((mkGeometry w h sx sy xs ys).length / 3
        = patchResolution (sx + 1) (sy + 1))
      ∧ (i < (mkGeometry w h sx sy xs ys).length / 3 →
          i < patchResolution (sx + 1) (sy + 1)) := by
  intro sx sy w h xs ys i
  have hlen : (mkGeometry w h sx sy xs ys).length / 3
      = patchResolution (sx + 1) (sy + 1) := by
    rw [mkGeometry_length, Nat.mul_div_cancel _ (by norm_num), patchResolution]
  exact ⟨hlen, fun hi => hlen ▸ hi⟩

/-- C10 (witness): node index 3 of a 2×2-vertex patch is in bounds. -/
theorem c10_sync_in_bounds_witness : 3 < patchResolution (1 + 1) (1 + 1) :=
  (c10_sync_in_bounds 1 1 2 2 0 0 3).2 (by decide)
